import Mathlib

/-!
Shallow embedding of the Docker goal execution of `@atomist/sdm-pack-docker`
(files `src/unnamed/part_000` = `executeDockerBuild.ts`, `src/lib/build/DockerExec.ts`,
`src/lib/docker/DockerBuild.ts`).

External effects (spawned processes, progress-log writes, GraphQL queries, the
image-link webhook) are recorded in an explicit event trace; the outcomes of the
external calls (exit results of the spawned processes, the webhook's boolean
reply, local-mode detection) are supplied by an environment record, so the
theorems quantify over every possible behaviour of the outside world.
-/

/-! ### JavaScript-semantics helpers -/

/-- Truthiness of an optional JS string: `undefined` and the empty string are falsy. -/
def jsTruthy : Option String → Bool
  | none => false
  | some s => s != ""

/-- Truthiness of an optional JS boolean: `undefined` is falsy. -/
def jsTruthyBool : Option Bool → Bool
  | none => false
  | some b => b

/-- JS string coercion of a possibly-`undefined` string, as performed by
`RegExp.test(x)` on a non-string argument: `undefined` becomes `"undefined"`. -/
def jsStringCoerce : Option String → String
  | none => "undefined"
  | some s => s

/-- Truthiness of a JS `Promise` object.  In `dockerPush` the async library
function `projectConfigurationValue` is invoked without `await`, so the
surrounding `if` tests the truthiness of the returned `Promise` object; in
JavaScript every object is truthy, so the test is constantly true regardless of
the value the promise would resolve to. -/
def promiseTruthy (_resolvedValue : Bool) : Bool := true

/-- Membership of a character in the regex class `[A-Za-z0-9]`. -/
def isAsciiAlphanumeric (c : Char) : Bool :=
  ('A' ≤ c && c ≤ 'Z') || ('a' ≤ c && c ≤ 'z') || ('0' ≤ c && c ≤ '9')

/-- The test `/[^A-Za-z0-9]/.test(s)`: does `s` contain a character outside
`A-Z`, `a-z`, `0-9`? -/
def hasNonAlphanumeric (s : String) : Bool :=
  s.data.any (fun c => ! isAsciiAlphanumeric c)

/-- Substring containment test, used to state that error messages name
particular configuration fields. -/
def strContains (s pat : String) : Bool :=
  (List.range (s.data.length + 1)).any (fun i => pat.data.isPrefixOf (s.data.drop i))

/-! ### Data model -/

deriving instance DecidableEq for Except

/-- `ExecuteGoalResult` from `@atomist/sdm`: exit code plus optional message
(external URLs are never produced by the code under study). -/
structure ExecuteGoalResult where
  code : Int
  message : Option String := none
deriving DecidableEq, Repr

/-- `Success` from `@atomist/automation-client`: the `{ code: 0 }` result. -/
def Success : ExecuteGoalResult := { code := 0 }

/-- `DockerOptions` of `executeDockerBuild.ts`: push flag and registry, user,
password overrides (the `dockerfileFinder` function is represented by passing
the path it resolves to as an argument to `executeDockerBuild`). -/
structure DockerOptions where
  push : Option Bool := none
  registry : Option String := none
  user : Option String := none
  password : Option String := none
deriving DecidableEq, Repr

/-- The record returned by a `DockerImageNameCreator`. -/
structure DockerImageName where
  registry : Option String := none
  name : String
  version : String
deriving DecidableEq, Repr

/-- The template literal of `executeDockerBuild`:
`${imageName.registry ? imageName.registry + "/" : ""}${imageName.name}:${imageName.version}`. -/
def imageString (i : DockerImageName) : String :=
  (if jsTruthy i.registry then i.registry.getD "" ++ "/" else "") ++ i.name ++ ":" ++ i.version

/-- The fields of the goal event / handler context consumed by the executors:
repository identity, commit sha, the workspace id of the context, and the goal
set id used to scope the Docker config directory. -/
structure SdmGoalEvent where
  owner : String
  repoName : String
  sha : String
  workspaceId : String
  goalSetId : String
deriving DecidableEq, Repr

/-- One observable side effect of an executor: a spawned process (with the
`DOCKER_CONFIG` value placed in its environment, when one is set), a progress
log write, a GraphQL query, or the image-link webhook call. -/
inductive Event where
  | spawn (command : String) (args : List String) (dockerConfig : Option String)
  | log (message : String)
  | query (queryName : String)
  | webhook (owner repoName sha : String) (image : Option String) (workspaceId : String)
deriving DecidableEq, Repr

/-- Whether an event is the image-link webhook call. -/
def Event.isWebhook : Event → Bool
  | .webhook _ _ _ _ _ => true
  | _ => false

/-- Whether an event is a spawned process. -/
def Event.isSpawn : Event → Bool
  | .spawn _ _ _ => true
  | _ => false

/-- Whether an event spawns `docker <sub> ...` for the given subcommand. -/
def Event.isDockerSpawnOf (sub : String) : Event → Bool
  | .spawn c (a :: _) _ => c == "docker" && a == sub
  | _ => false

/-- Environment of one `executeDockerBuild` invocation: the outcomes of the
external calls the stages can make. -/
structure BuildEnv where
  loginResult : ExecuteGoalResult
  buildResult : ExecuteGoalResult
  pushResult : ExecuteGoalResult
  webhookOk : Bool
  localMode : Bool
  projectPushEnabled : Option Bool
deriving DecidableEq, Repr

/-! ### The `executeDockerBuild` pipeline (`src/unnamed/part_000`) -/

/-- Log line of the login stage. -/
def loginRunningMessage : String := "Running \x27docker login\x27"

/-- Log line of the skipped login stage. -/
def loginSkipMessage : String :=
  "Skipping \x27docker login\x27 because user and password are not configured"

/-- The configuration-missing message of `dockerPush`. -/
def pushMissingConfigMessage : String :=
  "Required configuration missing for pushing docker image. Please make sure to set " ++
    "\x27registry\x27, \x27user\x27 and \x27password\x27 in your configuration."

/-- Log line of the skipped push stage. -/
def pushSkipMessage : String := "Skipping \x27docker push\x27"

/-- `dockerLogin` of `executeDockerBuild.ts`: when both user and password are
truthy, spawn `docker login --username <user> --password <password>`, appending
the registry as explicit target when `/[^A-Za-z0-9]/.test(options.registry)`
holds; otherwise write a skip notice and return `Success` without spawning. -/
def dockerLogin (options : DockerOptions) (env : BuildEnv) : ExecuteGoalResult × List Event :=
  if jsTruthy options.user && jsTruthy options.password then
    let loginArgs : List String :=
      ["login", "--username", options.user.getD "", "--password", options.password.getD ""] ++
        (if hasNonAlphanumeric (jsStringCoerce options.registry) then [options.registry.getD ""]
         else [])
    (env.loginResult, [Event.log loginRunningMessage, Event.spawn "docker" loginArgs none])
  else
    (Success, [Event.log loginSkipMessage])

/-- `dockerPush` of `executeDockerBuild.ts`.  The source first defaults the
(mutated) `options.push` to `!isInLocalMode()` when it is `undefined`, then
tests `projectConfigurationValue("docker.push.enabled", project, options.push || true)`
without awaiting the async call — the `if` therefore sees a truthy `Promise`
object (see `promiseTruthy`); the skip branch is consequently dead code, kept
here as in the source.  Returns the stage result, the trace, and the final
(possibly mutated) options object. -/
def dockerPush (image : String) (options : DockerOptions) (env : BuildEnv) :
    ExecuteGoalResult × List Event × DockerOptions :=
  let options :=
    if options.push = none then { options with push := some (! env.localMode) } else options
  if promiseTruthy ((env.projectPushEnabled).getD (jsTruthyBool options.push || true)) then
    if ! jsTruthy options.user || ! jsTruthy options.password then
      ({ code := 1, message := some pushMissingConfigMessage },
        [Event.log pushMissingConfigMessage], options)
    else
      (env.pushResult, [Event.spawn "docker" ["push", image] none], options)
  else
    (Success, [Event.log pushSkipMessage], options)

/-- The `docker build . -f <dockerfilePath> -t <image>` spawn of stage 2. -/
def buildSpawnEvent (dockerfilePath image : String) : Event :=
  Event.spawn "docker" ["build", ".", "-f", dockerfilePath, "-t", image] none

/-- `executeDockerBuild` of `executeDockerBuild.ts`: login → build → push →
image-link webhook, each stage gated on the previous returning code 0.
`imageName` is the value produced by the (awaited) image-name creator and
`dockerfilePath` the path resolved by the Dockerfile finder (default
`"Dockerfile"`). -/
def executeDockerBuild (imageName : DockerImageName) (dockerfilePath : String)
    (goalEvent : SdmGoalEvent) (options : DockerOptions) (env : BuildEnv) :
    ExecuteGoalResult × List Event :=
  let image := imageString imageName
  let step1 := dockerLogin options env
  if step1.1.code ≠ 0 then step1
  else
    let events1 := step1.2 ++ [buildSpawnEvent dockerfilePath image]
    if env.buildResult.code ≠ 0 then (env.buildResult, events1)
    else
      let step3 := dockerPush image options env
      let events2 := events1 ++ step3.2.1
      if step3.1.code ≠ 0 then (step3.1, events2)
      else
        let events3 := events2 ++
          [Event.webhook goalEvent.owner goalEvent.repoName goalEvent.sha (some image)
            goalEvent.workspaceId]
        if env.webhookOk then (step3.1, events3)
        else ({ code := 1, message := some "Image link failed" }, events3)

/-! ### The `doDockerRun` pipeline (`src/lib/build/DockerExec.ts`) -/

/-- The builder selector of the extended options (`"docker" | "kaniko"`). -/
inductive Builder where
  | docker
  | kaniko
deriving DecidableEq, Repr

/-- One registry credential record (`DockerRegistry`, declared in
`lib/build/DockerBuild.ts`, which is not among the staged sources; the field
set is reconstructed from its uses in `DockerExec.ts` and from the spec's
RegistryCredential: {host, user, secret, label, display-flag}). -/
structure DockerRegistry where
  registry : String
  user : Option String := none
  password : Option String := none
  label : Option String := none
  display : Bool := false
deriving DecidableEq, Repr

/-- The extended options consumed by `doDockerRun` (`DockerOptionsPlus`,
extending the `DockerOptions` of `lib/build/DockerBuild.ts`; fields are those
used by `DockerExec.ts` plus the spec's configuration surface).  `registry`
holds `undefined` or the (possibly singleton) array that `toArray` produces;
`config` is the raw docker config blob. -/
structure DockerOptionsPlus where
  push : Option Bool := none
  config : Option String := none
  registry : Option (List DockerRegistry) := none
  builder : Builder := Builder.docker
  builderArgs : List String := []
  builderPath : String := "hello-world"
  programArgs : List String := []
deriving DecidableEq, Repr

/-- `toArray(x || [])` of lodash on the registry field: `undefined` becomes the
empty array, an array is returned as-is. -/
def toArrayJs : Option (List DockerRegistry) → List DockerRegistry
  | none => []
  | some l => l

/-- Environment of one `doDockerRun` invocation. -/
structure RunEnv where
  builderAvailable : Bool
  discoveredRegistries : List DockerRegistry
  runResult : ExecuteGoalResult
  webhookOk : Bool
  homedir : String
deriving DecidableEq, Repr

/-- The executable probed by `checkIsBuilderAvailable` for each builder. -/
def builderProbeCommand : Builder → String
  | Builder.docker => "docker"
  | Builder.kaniko => "/kaniko/executor"

/-- The probe arguments for each builder. -/
def builderProbeArgs : Builder → List String
  | Builder.docker => ["help"]
  | Builder.kaniko => ["--help"]

/-- The error thrown by `checkIsBuilderAvailable` when the probe fails. -/
def builderUnavailableMessage (b : Builder) : String :=
  "Configured Docker image builder \x27" ++ builderProbeCommand b ++ "\x27 is not available"

/-- `dockerConfigPath` of `DockerExec.ts`: the shared `~/.docker` when some
configured registry carries both user and password, the goal-set-scoped
`~/.docker-<goalSetId>` when `options.config` is truthy, and `undefined`
otherwise (the function falls off its end). -/
def dockerConfigPath (options : DockerOptionsPlus) (goalEvent : SdmGoalEvent)
    (homedir : String) : Option String :=
  if (toArrayJs options.registry).any (fun r => jsTruthy r.user && jsTruthy r.password) then
    some (homedir ++ "/.docker")
  else if jsTruthy options.config then
    some (homedir ++ "/.docker-" ++ goalEvent.goalSetId)
  else
    none

/-- The `docker run <builderArgs...> <builderPath> <programArgs...>` spawn of
`runWithDocker`, carrying `DOCKER_CONFIG` in its environment. -/
def runSpawnEvent (optsToUse : DockerOptionsPlus) (goalEvent : SdmGoalEvent)
    (homedir : String) : Event :=
  Event.spawn "docker"
    (["run"] ++ optsToUse.builderArgs ++ [optsToUse.builderPath] ++ optsToUse.programArgs)
    (dockerConfigPath optsToUse goalEvent homedir)

/-- Whether `doDockerRun` queries the graph for registries: no raw config and
no configured registry entries. -/
def registryDiscoveryNeeded (optsToUse : DockerOptionsPlus) : Bool :=
  ! jsTruthy optsToUse.config && (toArrayJs optsToUse.registry).length == 0

/-- `doDockerRun` of `DockerExec.ts` (the run-variant executor).  The argument
is the `optsToUse` produced by `mergeOptions(options, {}, "docker.build")`.
The builder probe throws (`Except.error`) when unavailable; the login stage is
stubbed to `{code: 0}` and `images` to `[]` in the source; `runWithKaniko`
throws `"runWithKaniko unimplemented."`; the image-link webhook is posted with
`images[0]` (i.e. `undefined`).  Returns the outcome (`Except.error` for a
thrown error), the event trace, and the final (possibly mutated) options. -/
def doDockerRun (optsToUse : DockerOptionsPlus) (goalEvent : SdmGoalEvent) (env : RunEnv) :
    Except String ExecuteGoalResult × List Event × DockerOptionsPlus :=
  let probe :=
    Event.spawn (builderProbeCommand optsToUse.builder) (builderProbeArgs optsToUse.builder) none
  if ! env.builderAvailable then
    (Except.error (builderUnavailableMessage optsToUse.builder), [probe], optsToUse)
  else
    let discover := registryDiscoveryNeeded optsToUse
    let optsToUse :=
      if discover then { optsToUse with registry := some env.discoveredRegistries } else optsToUse
    let events := [probe] ++ (if discover then [Event.query "DockerRegistryProvider"] else [])
    let result : ExecuteGoalResult := { code := 0 }
    let images : List String := []
    if result.code ≠ 0 then (Except.ok result, events, optsToUse)
    else
      match optsToUse.builder with
      | Builder.docker =>
        let events := events ++ [runSpawnEvent optsToUse goalEvent env.homedir]
        let result := env.runResult
        if result.code ≠ 0 then (Except.ok result, events, optsToUse)
        else
          let events := events ++
            [Event.webhook goalEvent.owner goalEvent.repoName goalEvent.sha images.head?
              goalEvent.workspaceId]
          if env.webhookOk then (Except.ok result, events, optsToUse)
          else (Except.ok { code := 1, message := some "Image link failed" }, events, optsToUse)
      | Builder.kaniko =>
        (Except.error "runWithKaniko unimplemented.", events, optsToUse)

/-- Predicate for C10: a webhook event carrying no image reference (non-webhook
events pass vacuously). -/
def Event.webhookImageAbsent : Event → Bool
  | .webhook _ _ _ img _ => img.isNone
  | _ => true

/-! ### Sample fixtures used by witnesses and counterexamples -/

/-- A sample image name, rendering as `"n:v"`. -/
def sampleImageName : DockerImageName := { name := "n", version := "v" }

/-- A sample goal event. -/
def sampleGoalEvent : SdmGoalEvent :=
  { owner := "o", repoName := "r", sha := "s", workspaceId := "w", goalSetId := "g" }

/-- Sample options with credentials configured. -/
def sampleCreds : DockerOptions := { user := some "u", password := some "p" }

/-- Environment where every external call succeeds. -/
def envAllOk : BuildEnv :=
  { loginResult := { code := 0 }, buildResult := { code := 0 }, pushResult := { code := 0 },
    webhookOk := true, localMode := false, projectPushEnabled := none }

/-- Environment where the spawned `docker login` process exits 5. -/
def envLoginFail : BuildEnv := { envAllOk with loginResult := { code := 5 } }

/-- Run environment where every external call succeeds. -/
def renvAllOk : RunEnv :=
  { builderAvailable := true, discoveredRegistries := [], runResult := { code := 0 },
    webhookOk := true, homedir := "/home/a" }

/-- Environment in which the spawned `docker push` process exits 7 and
everything else succeeds. -/
def envC2 : BuildEnv := { envAllOk with pushResult := { code := 7 } }

/-- A registry credential with user and password configured. -/
def credRegistry : DockerRegistry :=
  { registry := "r.io", user := some "u", password := some "p" }

/-- Options that carry both a raw docker config and a credentialed registry. -/
def c8Options : DockerOptionsPlus := { config := some "cfg", registry := some [credRegistry] }

/-- Goal event of a first concurrent invocation (goal set `gsA`). -/
def c8GoalEventA : SdmGoalEvent := { sampleGoalEvent with goalSetId := "gsA" }

/-- Goal event of a second concurrent invocation (goal set `gsB`). -/
def c8GoalEventB : SdmGoalEvent := { sampleGoalEvent with goalSetId := "gsB" }

/-- Run environment whose graph query discovers one credentialed registry. -/
def renvDiscover : RunEnv := { renvAllOk with discoveredRegistries := [credRegistry] }

/-! ### Helper lemmas -/

set_option maxRecDepth 10000

theorem loginTrace_all (options : DockerOptions) (env : BuildEnv)
    (f : Event → Bool) (h1 : f (Event.log loginRunningMessage) = true)
    (h2 : f (Event.log loginSkipMessage) = true)
    (h3 : ∀ args cfg, f (Event.spawn "docker" ("login" :: args) cfg) = true) :
    ((dockerLogin options env).2.all f) = true := by
  unfold dockerLogin
  by_cases h : (jsTruthy options.user && jsTruthy options.password) = true
  · simp only [h, if_true, List.all_cons, List.all_nil, List.cons_append]
    rw [h1, h3]
    rfl
  · simp only [Bool.not_eq_true] at h
    simp only [h, Bool.false_eq_true, if_false, List.all_cons, List.all_nil]
    rw [h2]
    rfl

theorem pushTrace_all (image : String) (options : DockerOptions) (env : BuildEnv)
    (f : Event → Bool) (h1 : f (Event.log pushMissingConfigMessage) = true)
    (h3 : ∀ cfg, f (Event.spawn "docker" ["push", image] cfg) = true) :
    (((dockerPush image options env).2.1).all f) = true := by
  unfold dockerPush
  by_cases h : options.push = none <;>
    by_cases hc : (! jsTruthy options.user || ! jsTruthy options.password) = true <;>
      simp only [h, hc, if_true, if_false, Bool.not_eq_true, promiseTruthy,
        List.all_cons, List.all_nil, h1, h3, Bool.and_true, Bool.true_and] <;>
      first
        | rfl
        | (rw [if_neg (by simp_all)]; simp only [List.all_cons, List.all_nil, h3]; rfl)

/-! ### Claims -/

/-- C1: for every invocation of `executeDockerBuild` (and of `doDockerRun`), if
any stage (login, build, push, docker-run) returns a result with nonzero code,
then no subsequent stage runs — no later process is spawned and the image-link
notification is not posted — and exactly that stage's result, unmodified,
becomes the goal's final result. -/
theorem claim_C1_stage_failure_short_circuits
    (imageName : DockerImageName) (dockerfilePath : String) (goalEvent : SdmGoalEvent)
    (options : DockerOptions) (env : BuildEnv)
    (optsP : DockerOptionsPlus) (goalEvent2 : SdmGoalEvent) (renv : RunEnv) :
    (((dockerLogin options env).1.code ≠ 0 →
      executeDockerBuild imageName dockerfilePath goalEvent options env = dockerLogin options env ∧
      ((dockerLogin options env).2.all (fun e =>
        ! e.isDockerSpawnOf "build" && ! e.isDockerSpawnOf "push" && ! e.isWebhook)) = true) ∧
    ((dockerLogin options env).1.code = 0 → env.buildResult.code ≠ 0 →
      executeDockerBuild imageName dockerfilePath goalEvent options env =
        (env.buildResult,
         (dockerLogin options env).2 ++ [buildSpawnEvent dockerfilePath (imageString imageName)]) ∧
      (((dockerLogin options env).2 ++
          [buildSpawnEvent dockerfilePath (imageString imageName)]).all
        (fun e => ! e.isDockerSpawnOf "push" && ! e.isWebhook)) = true) ∧
    ((dockerLogin options env).1.code = 0 → env.buildResult.code = 0 →
      (dockerPush (imageString imageName) options env).1.code ≠ 0 →
      executeDockerBuild imageName dockerfilePath goalEvent options env =
        ((dockerPush (imageString imageName) options env).1,
         (dockerLogin options env).2 ++ [buildSpawnEvent dockerfilePath (imageString imageName)] ++
           (dockerPush (imageString imageName) options env).2.1) ∧
      ((executeDockerBuild imageName dockerfilePath goalEvent options env).2.all
        (fun e => ! e.isWebhook)) = true)) ∧
    (renv.builderAvailable = true → optsP.builder = Builder.docker → renv.runResult.code ≠ 0 →
      (doDockerRun optsP goalEvent2 renv).1 = Except.ok renv.runResult ∧
      ((doDockerRun optsP goalEvent2 renv).2.1.all (fun e => ! e.isWebhook)) = true) := by
  refine ⟨⟨?_, ?_, ?_⟩, ?_⟩
  · intro h
    refine ⟨?_, loginTrace_all options env _ rfl rfl (fun args cfg => rfl)⟩
    simp only [executeDockerBuild]
    rw [if_pos h]
  · intro h1 h2
    refine ⟨?_, ?_⟩
    · simp only [executeDockerBuild]
      rw [if_neg (by simp [h1]), if_pos h2]
    · rw [List.all_append]
      rw [loginTrace_all options env _ rfl rfl (fun args cfg => rfl)]
      rfl
  · intro h1 h2 h3
    have heq : executeDockerBuild imageName dockerfilePath goalEvent options env =
        ((dockerPush (imageString imageName) options env).1,
         (dockerLogin options env).2 ++ [buildSpawnEvent dockerfilePath (imageString imageName)] ++
           (dockerPush (imageString imageName) options env).2.1) := by
      simp only [executeDockerBuild]
      rw [if_neg (by simp [h1]), if_neg (by simp [h2]), if_pos h3]
    refine ⟨heq, ?_⟩
    rw [heq]
    simp only [List.all_append]
    rw [loginTrace_all options env _ rfl rfl (fun args cfg => rfl),
      pushTrace_all (imageString imageName) options env _ rfl (fun cfg => rfl)]
    rfl
  · intro h1 h2 h3
    unfold doDockerRun
    rw [h1]
    by_cases hd : registryDiscoveryNeeded optsP = true <;>
      simp only [hd, Bool.not_true, Bool.false_eq_true, if_false, if_true] <;>
      simp [h2, h3, Event.isWebhook, runSpawnEvent]

/-- Witness for C1: a concrete invocation whose `docker login` process exits 5;
the goal's outcome is exactly the login stage's result and trace. -/
theorem claim_C1_witness :
    executeDockerBuild sampleImageName "Dockerfile" sampleGoalEvent sampleCreds envLoginFail =
      dockerLogin sampleCreds envLoginFail ∧
    ((dockerLogin sampleCreds envLoginFail).2.all (fun e =>
      ! e.isDockerSpawnOf "build" && ! e.isDockerSpawnOf "push" && ! e.isWebhook)) = true :=
  (claim_C1_stage_failure_short_circuits sampleImageName "Dockerfile" sampleGoalEvent
      sampleCreds envLoginFail {} sampleGoalEvent renvAllOk).1.1 (by decide)

/-- C2 (code-bug evidence): with builder `docker`, options
`{push: false, user: "u", password: "p"}` and no project configuration, the
push stage is not skipped: `docker push n:v` is spawned and its exit result
(here 7) becomes the goal's final result, where the claim — and the `push`
option's own documentation together with the local-mode comment in
`dockerPush` — require the stage to be skipped with overall result code 0.
The cause is the always-true default `options.push || true` handed to the
un-awaited `projectConfigurationValue` call. -/
theorem claim_C2_push_false_still_pushes :
    (Event.spawn "docker" ["push", "n:v"] none) ∈
      (executeDockerBuild sampleImageName "Dockerfile" sampleGoalEvent
        { push := some false, user := some "u", password := some "p" } envC2).2 ∧
    (executeDockerBuild sampleImageName "Dockerfile" sampleGoalEvent
        { push := some false, user := some "u", password := some "p" } envC2).1 =
      { code := 7 } := by
  decide

/-- C3: whenever push is enabled (explicitly `true`, or defaulted on outside
local mode) and user or password is absent (undefined or empty), the push
stage returns code 1 with the configuration-missing message — which names the
`registry`, `user` and `password` fields — and spawns no process. -/
theorem claim_C3_missing_credentials_fail_push
    (image : String) (options : DockerOptions) (env : BuildEnv)
    (_hEnabled : options.push = some true ∨ (options.push = none ∧ env.localMode = false))
    (hMissing : jsTruthy options.user = false ∨ jsTruthy options.password = false) :
    (dockerPush image options env).1 = { code := 1, message := some pushMissingConfigMessage } ∧
    (((dockerPush image options env).2.1).all (fun e => ! e.isSpawn)) = true ∧
    strContains pushMissingConfigMessage "registry" = true ∧
    strContains pushMissingConfigMessage "user" = true ∧
    strContains pushMissingConfigMessage "password" = true := by
  have hc : (! jsTruthy options.user || ! jsTruthy options.password) = true := by
    rcases hMissing with h | h <;> simp [h]
  have hres : dockerPush image options env =
      ({ code := 1, message := some pushMissingConfigMessage },
       [Event.log pushMissingConfigMessage],
       if options.push = none then { options with push := some (! env.localMode) }
       else options) := by
    unfold dockerPush
    by_cases h : options.push = none <;> simp [h, hc, promiseTruthy]
  rw [hres]
  exact ⟨rfl, rfl, by decide, by decide, by decide⟩

/-- Witness for C3: push explicitly enabled, no credentials configured. -/
theorem claim_C3_witness :
    (dockerPush "n:v" { push := some true } envAllOk).1 =
      { code := 1, message := some pushMissingConfigMessage } ∧
    (((dockerPush "n:v" { push := some true } envAllOk).2.1).all (fun e => ! e.isSpawn)) = true ∧
    strContains pushMissingConfigMessage "registry" = true ∧
    strContains pushMissingConfigMessage "user" = true ∧
    strContains pushMissingConfigMessage "password" = true :=
  claim_C3_missing_credentials_fail_push "n:v" { push := some true } envAllOk
    (Or.inl rfl) (Or.inl rfl)

/-- C4: whenever the kaniko builder is selected and its availability probe
passes, `doDockerRun` ends in the thrown error `runWithKaniko unimplemented.`
and never in a silent success. -/
theorem claim_C4_kaniko_explicit_failure
    (optsToUse : DockerOptionsPlus) (goalEvent : SdmGoalEvent) (env : RunEnv)
    (hb : optsToUse.builder = Builder.kaniko) (ha : env.builderAvailable = true) :
    (doDockerRun optsToUse goalEvent env).1 = Except.error "runWithKaniko unimplemented." ∧
    ∀ r, (doDockerRun optsToUse goalEvent env).1 ≠ Except.ok r := by
  have h1 : (doDockerRun optsToUse goalEvent env).1 =
      Except.error "runWithKaniko unimplemented." := by
    unfold doDockerRun
    rw [ha]
    by_cases hd : registryDiscoveryNeeded optsToUse = true <;>
      simp only [hd, Bool.not_true, Bool.false_eq_true, if_false, if_true] <;>
      simp [hb]
  refine ⟨h1, fun r hr => ?_⟩
  rw [h1] at hr
  exact Except.noConfusion hr

/-- Witness for C4: a concrete kaniko invocation with the probe passing. -/
theorem claim_C4_witness :
    (doDockerRun { builder := Builder.kaniko } sampleGoalEvent renvAllOk).1 =
      Except.error "runWithKaniko unimplemented." ∧
    ∀ r, (doDockerRun { builder := Builder.kaniko } sampleGoalEvent renvAllOk).1 ≠
      Except.ok r :=
  claim_C4_kaniko_explicit_failure { builder := Builder.kaniko } sampleGoalEvent renvAllOk
    rfl rfl

/-- Equality of the registry test under JS string coercion with the test on the
configured registry value (an absent registry coerces to `"undefined"`, which
has no character outside `A-Za-z0-9`, exactly like the empty default). -/
theorem hasNonAlphanumeric_coerce (r : Option String) :
    hasNonAlphanumeric (jsStringCoerce r) = hasNonAlphanumeric (r.getD "") := by
  cases r
  · decide
  · rfl

/-- C5: when every Docker stage exits 0 but the image-link webhook replies
false, both executors discard the successful result and end with
`{code: 1, message: "Image link failed"}`, while the already-performed push
(respectively run) process remains in the trace — it is not undone. -/
theorem claim_C5_webhook_failure_downgrades
    (imageName : DockerImageName) (dockerfilePath : String) (goalEvent : SdmGoalEvent)
    (options : DockerOptions) (env : BuildEnv)
    (optsP : DockerOptionsPlus) (goalEvent2 : SdmGoalEvent) (renv : RunEnv) :
    (jsTruthy options.user = true → jsTruthy options.password = true →
      env.loginResult.code = 0 → env.buildResult.code = 0 → env.pushResult.code = 0 →
      env.webhookOk = false →
      (executeDockerBuild imageName dockerfilePath goalEvent options env).1 =
        { code := 1, message := some "Image link failed" } ∧
      (Event.spawn "docker" ["push", imageString imageName] none) ∈
        (executeDockerBuild imageName dockerfilePath goalEvent options env).2) ∧
    (renv.builderAvailable = true → optsP.builder = Builder.docker →
      renv.runResult.code = 0 → renv.webhookOk = false →
      (doDockerRun optsP goalEvent2 renv).1 =
        Except.ok { code := 1, message := some "Image link failed" } ∧
      ((doDockerRun optsP goalEvent2 renv).2.1.any (fun e => e.isDockerSpawnOf "run")) = true) := by
  constructor
  · intro hu hp h1 h2 h3 hw
    have hlc : dockerLogin options env =
        (env.loginResult,
         [Event.log loginRunningMessage,
          Event.spawn "docker"
            (["login", "--username", options.user.getD "", "--password",
                options.password.getD ""] ++
              (if hasNonAlphanumeric (jsStringCoerce options.registry)
               then [options.registry.getD ""] else []))
            none]) := by
      unfold dockerLogin
      rw [if_pos (by simp [hu, hp])]
    have hpp : dockerPush (imageString imageName) options env =
        (env.pushResult, [Event.spawn "docker" ["push", imageString imageName] none],
         if options.push = none then { options with push := some (! env.localMode) }
         else options) := by
      have hc : (! jsTruthy options.user || ! jsTruthy options.password) = false := by
        simp [hu, hp]
      unfold dockerPush
      by_cases h : options.push = none <;> simp [h, hc, promiseTruthy]
    simp only [executeDockerBuild]
    rw [hlc, hpp]
    simp [h1, h2, h3, hw]
  · intro h1 h2 h3 hw
    unfold doDockerRun
    rw [h1]
    by_cases hd : registryDiscoveryNeeded optsP = true <;>
      simp only [hd, Bool.not_true, Bool.false_eq_true, if_false, if_true] <;>
      simp [h2, h3, hw, runSpawnEvent, Event.isDockerSpawnOf]

/-- Witness for C5: concrete invocations of both executors with all processes
succeeding and the webhook replying false. -/
theorem claim_C5_witness :
    ((executeDockerBuild sampleImageName "Dockerfile" sampleGoalEvent sampleCreds
        { envAllOk with webhookOk := false }).1 =
      { code := 1, message := some "Image link failed" } ∧
    (Event.spawn "docker" ["push", imageString sampleImageName] none) ∈
      (executeDockerBuild sampleImageName "Dockerfile" sampleGoalEvent sampleCreds
        { envAllOk with webhookOk := false }).2) ∧
    ((doDockerRun {} sampleGoalEvent { renvAllOk with webhookOk := false }).1 =
      Except.ok { code := 1, message := some "Image link failed" } ∧
    ((doDockerRun {} sampleGoalEvent
        { renvAllOk with webhookOk := false }).2.1.any
      (fun e => e.isDockerSpawnOf "run")) = true) :=
  ⟨(claim_C5_webhook_failure_downgrades sampleImageName "Dockerfile" sampleGoalEvent sampleCreds
      { envAllOk with webhookOk := false } {} sampleGoalEvent
      { renvAllOk with webhookOk := false }).1
    (by decide) (by decide) (by decide) (by decide) (by decide) (by decide),
   (claim_C5_webhook_failure_downgrades sampleImageName "Dockerfile" sampleGoalEvent sampleCreds
      { envAllOk with webhookOk := false } {} sampleGoalEvent
      { renvAllOk with webhookOk := false }).2
    (by decide) (by decide) (by decide) (by decide)⟩

/-- C6: when the builder availability probe fails, `doDockerRun` ends in the
configuration error naming the probed builder executable, and its whole trace
is the probe spawn alone — no registry discovery, no build/push/run process,
no webhook. -/
theorem claim_C6_probe_failure_short_circuits
    (optsToUse : DockerOptionsPlus) (goalEvent : SdmGoalEvent) (env : RunEnv)
    (h : env.builderAvailable = false) :
    doDockerRun optsToUse goalEvent env =
      (Except.error (builderUnavailableMessage optsToUse.builder),
       [Event.spawn (builderProbeCommand optsToUse.builder) (builderProbeArgs optsToUse.builder)
          none],
       optsToUse) ∧
    strContains (builderUnavailableMessage optsToUse.builder)
      (builderProbeCommand optsToUse.builder) = true := by
  constructor
  · unfold doDockerRun
    rw [h]
    simp
  · cases hcb : optsToUse.builder <;> decide

/-- Witness for C6: a concrete invocation whose probe fails. -/
theorem claim_C6_witness :
    doDockerRun {} sampleGoalEvent { renvAllOk with builderAvailable := false } =
      (Except.error (builderUnavailableMessage Builder.docker),
       [Event.spawn (builderProbeCommand Builder.docker) (builderProbeArgs Builder.docker) none],
       {}) ∧
    strContains (builderUnavailableMessage Builder.docker)
      (builderProbeCommand Builder.docker) = true :=
  claim_C6_probe_failure_short_circuits {} sampleGoalEvent
    { renvAllOk with builderAvailable := false } rfl

/-- C7: `dockerLogin` spawns a process iff both user and password are present
(configured and non-empty); the spawned command is
`docker login --username <user> --password <password>`, with the registry
appended as explicit target iff it contains a character outside `A-Za-z0-9`;
with a credential absent it writes the skip notice and returns success
(code 0) without spawning. -/
theorem claim_C7_login_characterization (options : DockerOptions) (env : BuildEnv) :
    ((∃ c a cfg, Event.spawn c a cfg ∈ (dockerLogin options env).2) ↔
      (jsTruthy options.user = true ∧ jsTruthy options.password = true)) ∧
    (jsTruthy options.user = true → jsTruthy options.password = true →
      dockerLogin options env =
        (env.loginResult,
         [Event.log loginRunningMessage,
          Event.spawn "docker"
            (["login", "--username", options.user.getD "", "--password",
                options.password.getD ""] ++
              (if hasNonAlphanumeric (options.registry.getD "")
               then [options.registry.getD ""] else []))
            none])) ∧
    (¬ (jsTruthy options.user = true ∧ jsTruthy options.password = true) →
      dockerLogin options env = (Success, [Event.log loginSkipMessage]) ∧
      Success.code = 0) := by
  refine ⟨⟨?_, ?_⟩, ?_, ?_⟩
  · rintro ⟨c, a, cfg, hm⟩
    by_cases hcred : (jsTruthy options.user && jsTruthy options.password) = true
    · simpa using hcred
    · exfalso
      unfold dockerLogin at hm
      rw [if_neg hcred] at hm
      simp at hm
  · rintro ⟨hu, hp⟩
    refine ⟨"docker",
      ["login", "--username", options.user.getD "", "--password", options.password.getD ""] ++
        (if hasNonAlphanumeric (jsStringCoerce options.registry) then [options.registry.getD ""]
         else []), none, ?_⟩
    unfold dockerLogin
    rw [if_pos (by simp [hu, hp])]
    simp
  · intro hu hp
    unfold dockerLogin
    rw [if_pos (by simp [hu, hp]), hasNonAlphanumeric_coerce]
  · intro hn
    unfold dockerLogin
    rw [if_neg (by rw [Bool.and_eq_true]; exact hn)]
    exact ⟨rfl, rfl⟩

/-- Witness for C7: credentials present and a dotted registry host, which is
appended as the explicit login target. -/
theorem claim_C7_witness :
    dockerLogin { user := some "u", password := some "p", registry := some "my.reg.io" }
        envAllOk =
      (envAllOk.loginResult,
       [Event.log loginRunningMessage,
        Event.spawn "docker"
          (["login", "--username", "u", "--password", "p"] ++
            (if hasNonAlphanumeric ((some "my.reg.io" : Option String).getD "")
             then [(some "my.reg.io" : Option String).getD ""] else []))
          none]) :=
  (claim_C7_login_characterization
      { user := some "u", password := some "p", registry := some "my.reg.io" } envAllOk).2.1
    (by decide) (by decide)

/-- Right-cancellation of string append, used for the goal-set scoping of the
Docker config directory. -/
theorem string_append_right_ne (a : String) {b c : String} (h : b ≠ c) : a ++ b ≠ a ++ c := by
  intro he
  apply h
  apply String.ext
  have hd : (a ++ b).data = (a ++ c).data := by rw [he]
  rw [String.data_append, String.data_append] at hd
  exact List.append_cancel_left hd

/-- Counterexample to C8: two invocations with distinct goal-set identifiers
but a credentialed registry receive the same `DOCKER_CONFIG` directory,
`~/.docker` — the credential directory is not per-invocation. -/
theorem claim_C8_counterexample :
    c8GoalEventA.goalSetId ≠ c8GoalEventB.goalSetId ∧
    dockerConfigPath c8Options c8GoalEventA "/home/a" =
      dockerConfigPath c8Options c8GoalEventB "/home/a" ∧
    dockerConfigPath c8Options c8GoalEventA "/home/a" = some "/home/a/.docker" := by
  decide

/-- C8 (amended): the `DOCKER_CONFIG` directory is scoped per invocation
(`~/.docker-<goalSetId>`, distinct for distinct goal sets) only when
`options.config` is set and no configured registry carries both user and
password; when some registry carries both, every invocation shares `~/.docker`;
with neither, `DOCKER_CONFIG` is undefined. -/
theorem claim_C8_amended_scoping
    (options : DockerOptionsPlus) (ge ge2 : SdmGoalEvent) (home : String) :
    ((toArrayJs options.registry).any (fun r => jsTruthy r.user && jsTruthy r.password) = true →
      dockerConfigPath options ge home = some (home ++ "/.docker") ∧
      dockerConfigPath options ge home = dockerConfigPath options ge2 home) ∧
    ((toArrayJs options.registry).any (fun r => jsTruthy r.user && jsTruthy r.password) = false →
      jsTruthy options.config = true →
      dockerConfigPath options ge home = some (home ++ "/.docker-" ++ ge.goalSetId) ∧
      (ge.goalSetId ≠ ge2.goalSetId →
        dockerConfigPath options ge home ≠ dockerConfigPath options ge2 home)) ∧
    ((toArrayJs options.registry).any (fun r => jsTruthy r.user && jsTruthy r.password) = false →
      jsTruthy options.config = false →
      dockerConfigPath options ge home = none) := by
  refine ⟨?_, ?_, ?_⟩
  · intro hcred
    unfold dockerConfigPath
    rw [if_pos hcred, if_pos hcred]
    exact ⟨rfl, rfl⟩
  · intro hcred hcfg
    have h1 : dockerConfigPath options ge home =
        some (home ++ "/.docker-" ++ ge.goalSetId) := by
      unfold dockerConfigPath
      rw [if_neg (by simp [hcred]), if_pos hcfg]
    have h2 : dockerConfigPath options ge2 home =
        some (home ++ "/.docker-" ++ ge2.goalSetId) := by
      unfold dockerConfigPath
      rw [if_neg (by simp [hcred]), if_pos hcfg]
    refine ⟨h1, fun hgs heq => ?_⟩
    rw [h1, h2] at heq
    exact string_append_right_ne (home ++ "/.docker-") hgs (Option.some.inj heq)
  · intro hcred hcfg
    unfold dockerConfigPath
    rw [if_neg (by simp [hcred]), if_neg (by simp [hcfg])]

/-- Witness for C8 (amended): with a raw config and no credentialed registry,
distinct goal sets receive distinct directories. -/
theorem claim_C8_witness :
    dockerConfigPath { config := some "cfg" } c8GoalEventA "/home/a" =
      some ("/home/a" ++ "/.docker-" ++ c8GoalEventA.goalSetId) ∧
    (c8GoalEventA.goalSetId ≠ c8GoalEventB.goalSetId →
      dockerConfigPath { config := some "cfg" } c8GoalEventA "/home/a" ≠
        dockerConfigPath { config := some "cfg" } c8GoalEventB "/home/a") :=
  (claim_C8_amended_scoping { config := some "cfg" } c8GoalEventA c8GoalEventB "/home/a").2.1
    (by decide) (by decide)

/-- The final options object produced by `dockerPush`: the push flag is
defaulted to the negation of local mode when undefined; nothing else changes. -/
theorem dockerPush_final_options (image : String) (options : DockerOptions) (env : BuildEnv) :
    (dockerPush image options env).2.2 =
      if options.push = none then { options with push := some (! env.localMode) }
      else options := by
  unfold dockerPush
  by_cases h : options.push = none <;>
    by_cases hc : (! jsTruthy options.user || ! jsTruthy options.password) = true <;>
      simp [h, hc, promiseTruthy]

/-- The final options object produced by `doDockerRun`: the registry list is
replaced by the discovered registries exactly when the probe passed and
discovery was needed; nothing else changes. -/
theorem doDockerRun_final_options (optsP : DockerOptionsPlus) (ge : SdmGoalEvent)
    (renv : RunEnv) :
    (doDockerRun optsP ge renv).2.2 =
      if renv.builderAvailable = true ∧ registryDiscoveryNeeded optsP = true
      then { optsP with registry := some renv.discoveredRegistries } else optsP := by
  unfold doDockerRun
  by_cases ha : renv.builderAvailable = true
  · rw [ha]
    by_cases hd : registryDiscoveryNeeded optsP = true <;>
      simp only [hd, ha, Bool.not_true, Bool.false_eq_true, if_false, if_true, true_and] <;>
      cases hb : optsP.builder <;>
      simp [hb] <;> split_ifs <;> rfl
  · have ha' : renv.builderAvailable = false := by
      rw [Bool.not_eq_true] at ha
      exact ha
    rw [ha']
    simp [ha']

/-- Counterexample to C9: the merged options are not immutable — `dockerPush`
writes the defaulted push flag into the options object, and `doDockerRun`
writes the discovered registry list into `optsToUse`. -/
theorem claim_C9_counterexample :
    (dockerPush "n:v" { push := none } envAllOk).2.2 ≠ ({ push := none } : DockerOptions) ∧
    (doDockerRun {} sampleGoalEvent renvDiscover).2.2 ≠ ({} : DockerOptionsPlus) := by
  decide

/-- C9 (amended): the merged options are immutable except for exactly two
writes: `dockerPush` sets the undefined push flag to the negation of local
mode, and `doDockerRun`'s registry discovery stores the discovered registry
list; every other field is preserved by every stage. -/
theorem claim_C9_amended_mutations
    (image : String) (options : DockerOptions) (env : BuildEnv)
    (optsP : DockerOptionsPlus) (ge : SdmGoalEvent) (renv : RunEnv) :
    ((dockerPush image options env).2.2.registry = options.registry ∧
     (dockerPush image options env).2.2.user = options.user ∧
     (dockerPush image options env).2.2.password = options.password) ∧
    (options.push ≠ none → (dockerPush image options env).2.2 = options) ∧
    (options.push = none →
      (dockerPush image options env).2.2 = { options with push := some (! env.localMode) }) ∧
    ((doDockerRun optsP ge renv).2.2.push = optsP.push ∧
     (doDockerRun optsP ge renv).2.2.config = optsP.config ∧
     (doDockerRun optsP ge renv).2.2.builder = optsP.builder ∧
     (doDockerRun optsP ge renv).2.2.builderArgs = optsP.builderArgs ∧
     (doDockerRun optsP ge renv).2.2.builderPath = optsP.builderPath ∧
     (doDockerRun optsP ge renv).2.2.programArgs = optsP.programArgs) ∧
    (registryDiscoveryNeeded optsP = false ∨ renv.builderAvailable = false →
      (doDockerRun optsP ge renv).2.2 = optsP) ∧
    (registryDiscoveryNeeded optsP = true → renv.builderAvailable = true →
      (doDockerRun optsP ge renv).2.2 =
        { optsP with registry := some renv.discoveredRegistries }) := by
  rw [dockerPush_final_options, doDockerRun_final_options]
  refine ⟨?_, ?_, ?_, ?_, ?_, ?_⟩
  · by_cases h : options.push = none <;> simp [h]
  · intro h
    rw [if_neg h]
  · intro h
    rw [if_pos h]
  · by_cases h : renv.builderAvailable = true ∧ registryDiscoveryNeeded optsP = true <;>
      simp [h]
  · intro h
    rw [if_neg]
    rcases h with h | h
    · rintro ⟨-, h2⟩
      rw [h] at h2
      exact Bool.false_ne_true h2
    · rintro ⟨h1, -⟩
      rw [h] at h1
      exact Bool.false_ne_true h1
  · intro h1 h2
    rw [if_pos ⟨h2, h1⟩]

/-- Witness for C9 (amended): concrete stages exercising both the preserved
fields and the two documented writes. -/
theorem claim_C9_witness :
    ((dockerPush "n:v" sampleCreds envAllOk).2.2.registry = sampleCreds.registry ∧
     (dockerPush "n:v" sampleCreds envAllOk).2.2.user = sampleCreds.user ∧
     (dockerPush "n:v" sampleCreds envAllOk).2.2.password = sampleCreds.password) ∧
    (sampleCreds.push ≠ none → (dockerPush "n:v" sampleCreds envAllOk).2.2 = sampleCreds) ∧
    (sampleCreds.push = none →
      (dockerPush "n:v" sampleCreds envAllOk).2.2 =
        { sampleCreds with push := some (! envAllOk.localMode) }) ∧
    ((doDockerRun {} sampleGoalEvent renvDiscover).2.2.push = ({} : DockerOptionsPlus).push ∧
     (doDockerRun {} sampleGoalEvent renvDiscover).2.2.config =
       ({} : DockerOptionsPlus).config ∧
     (doDockerRun {} sampleGoalEvent renvDiscover).2.2.builder =
       ({} : DockerOptionsPlus).builder ∧
     (doDockerRun {} sampleGoalEvent renvDiscover).2.2.builderArgs =
       ({} : DockerOptionsPlus).builderArgs ∧
     (doDockerRun {} sampleGoalEvent renvDiscover).2.2.builderPath =
       ({} : DockerOptionsPlus).builderPath ∧
     (doDockerRun {} sampleGoalEvent renvDiscover).2.2.programArgs =
       ({} : DockerOptionsPlus).programArgs) ∧
    (registryDiscoveryNeeded {} = false ∨ renvDiscover.builderAvailable = false →
      (doDockerRun {} sampleGoalEvent renvDiscover).2.2 = {}) ∧
    (registryDiscoveryNeeded {} = true → renvDiscover.builderAvailable = true →
      (doDockerRun {} sampleGoalEvent renvDiscover).2.2 =
        { ({} : DockerOptionsPlus) with registry := some renvDiscover.discoveredRegistries }) :=
  claim_C9_amended_mutations "n:v" sampleCreds envAllOk {} sampleGoalEvent renvDiscover

/-- C10 (implicit): in `doDockerRun` the images list is the stubbed empty list,
so every image-link webhook in any trace carries `images[0]` of an empty list —
an absent image reference; and whenever the notification stage is reached the
webhook with the absent image is indeed posted. -/
theorem claim_C10_webhook_image_absent (optsP : DockerOptionsPlus) (ge : SdmGoalEvent)
    (renv : RunEnv) :
    ((doDockerRun optsP ge renv).2.1.all Event.webhookImageAbsent) = true ∧
    (renv.builderAvailable = true → optsP.builder = Builder.docker → renv.runResult.code = 0 →
      Event.webhook ge.owner ge.repoName ge.sha none ge.workspaceId ∈
        (doDockerRun optsP ge renv).2.1) := by
  constructor
  · unfold doDockerRun
    by_cases ha : renv.builderAvailable = true
    · rw [ha]
      by_cases hd : registryDiscoveryNeeded optsP = true <;>
        simp only [hd, ha, Bool.not_true, Bool.false_eq_true, if_false, if_true] <;>
        cases hb : optsP.builder <;>
        simp [hb, Event.webhookImageAbsent, runSpawnEvent] <;>
        split_ifs <;>
        simp [Event.webhookImageAbsent]
    · have ha' : renv.builderAvailable = false := by
        rw [Bool.not_eq_true] at ha
        exact ha
      rw [ha']
      simp [Event.webhookImageAbsent]
  · intro ha hb hr
    unfold doDockerRun
    rw [ha]
    by_cases hd : registryDiscoveryNeeded optsP = true <;>
      simp only [hd, Bool.not_true, Bool.false_eq_true, if_false, if_true] <;>
      simp [hb, hr] <;>
      by_cases hw : renv.webhookOk = true <;>
      simp [hw]

/-- Witness for C10: a concrete run that reaches the notification stage; the
posted webhook carries no image reference. -/
theorem claim_C10_witness :
    ((doDockerRun {} sampleGoalEvent renvAllOk).2.1.all Event.webhookImageAbsent) = true ∧
    (renvAllOk.builderAvailable = true → ({} : DockerOptionsPlus).builder = Builder.docker →
      renvAllOk.runResult.code = 0 →
      Event.webhook sampleGoalEvent.owner sampleGoalEvent.repoName sampleGoalEvent.sha none
          sampleGoalEvent.workspaceId ∈
        (doDockerRun {} sampleGoalEvent renvAllOk).2.1) :=
  claim_C10_webhook_image_absent {} sampleGoalEvent renvAllOk
